import Mathlib

/-!
Verification of the balance-ledger and transaction-lifecycle subsystem of the
instantglobal-server repository, against a shallow embedding of its routes and
services.

Modelling conventions:
* JavaScript numbers are modelled as rationals (`ℚ`); the flows under study
  perform only addition, subtraction, multiplication and comparison.
* Mongoose documents are modelled as Lean structures holding exactly the fields
  the embedded handlers read or write; timestamps (`date`, `processedAt`,
  `lastAttemptAt`) are omitted since no claim depends on real time.
* An Express handler is embedded as a pure function from the documents it loads
  (plus the request body) to `Except`/sum results; the success value is the
  state as persisted by the handler's `save()` calls, and an error value means
  the handler returned before persisting anything (matching the source, where
  every early `return` happens before the corresponding `save()`).
* External collaborators (the NOWPayments provider) are modelled as records of
  pure functions; a thrown exception is an `Except.error`.
-/

/-- The four balance buckets of a user account
(`src/src/models/user.ts`: `deposit`, `interest`, `withdraw`, `bonus`, each
declared with `default: 0, min: 0`). -/
structure Account where
  deposit  : ℚ
  interest : ℚ
  bonus    : ℚ
  withdraw : ℚ
deriving Repr, DecidableEq

/-- `getAvailableBalance` from `src/src/routes/banking.ts` (also duplicated in
`src/src/routes/cards.ts`): `deposit + interest + bonus - withdraw`. -/
def getAvailableBalance (user : Account) : ℚ :=
  user.deposit + user.interest + user.bonus - user.withdraw

/-- Result of `validateAndDeductBalance`: the source returns
`{success: false, message: "Insufficient balance. Available: $..., Required: $..."}`
(carrying both amounts) without touching the user, or `{success: true}` after
mutating and saving the user. -/
inductive DeductResult where
  | insufficient (available required : ℚ)
  | ok (user : Account)
deriving Repr, DecidableEq

/-- `validateAndDeductBalance` from `src/src/routes/banking.ts` lines 23-61.
The imperative `remaining` / bucket mutations are written as sequential `let`
bindings; each `if`/`else if` chain of the source appears twice (once for the
bucket, once for `remaining`) but with identical conditions, so the branches
coincide with the source's. -/
def validateAndDeductBalance (user : Account) (amount : ℚ) : DeductResult :=
  let availableBalance := getAvailableBalance user
  if availableBalance < amount then
    .insufficient availableBalance amount
  else
    -- if (user.deposit >= remaining) { user.deposit -= remaining; remaining = 0 }
    -- else { remaining -= user.deposit; user.deposit = 0 }
    let u1 : Account :=
      if user.deposit ≥ amount then { user with deposit := user.deposit - amount }
      else { user with deposit := 0 }
    let r1 : ℚ := if user.deposit ≥ amount then 0 else amount - user.deposit
    -- if (remaining > 0 && user.interest >= remaining) {...} else if (remaining > 0) {...}
    let u2 : Account :=
      if r1 > 0 ∧ u1.interest ≥ r1 then { u1 with interest := u1.interest - r1 }
      else if r1 > 0 then { u1 with interest := 0 }
      else u1
    let r2 : ℚ :=
      if r1 > 0 ∧ u1.interest ≥ r1 then 0
      else if r1 > 0 then r1 - u1.interest
      else r1
    -- if (remaining > 0 && user.bonus >= remaining) {...} else if (remaining > 0) {...}
    let u3 : Account :=
      if r2 > 0 ∧ u2.bonus ≥ r2 then { u2 with bonus := u2.bonus - r2 }
      else if r2 > 0 then { u2 with bonus := 0 }
      else u2
    .ok u3

/-- The account as persisted after a `validateAndDeductBalance` call: on the
insufficient-funds branch the source returns before any mutation, so the
stored account is unchanged. -/
def persistedAfterDeduct (user : Account) : DeductResult → Account
  | .insufficient _ _ => user
  | .ok u => u

/-- Written from the spec's words (for the refinement claim about deduction
precedence): debit `amount` from the buckets in the fixed precedence
deposit → interest → bonus, each bucket reduced to zero before spilling to
the next. -/
def specDeduct (u : Account) (amount : ℚ) : Account :=
  let takeD := min u.deposit amount
  let r1 := amount - takeD
  let takeI := min u.interest r1
  let r2 := r1 - takeI
  let takeB := min u.bonus r2
  { u with deposit := u.deposit - takeD, interest := u.interest - takeI, bonus := u.bonus - takeB }

/-- Transaction statuses occurring in the embedded flows
(`src/src/models/transaction.ts` stores `status` as a string with default
`"pending"`; `src/src/routes/plans.ts` additionally uses `"active"`). -/
inductive TxnStatus where
  | pending
  | approved
  | rejected
  | processing
  | completed
  | failed
  | requiresManual
  | active
deriving Repr, DecidableEq, BEq

/-- The string stored for each status (`requiresManual` is `"requires_manual"`). -/
def statusToString : TxnStatus → String
  | .pending => "pending"
  | .approved => "approved"
  | .rejected => "rejected"
  | .processing => "processing"
  | .completed => "completed"
  | .failed => "failed"
  | .requiresManual => "requires_manual"
  | .active => "active"

/-- A TransactionRecord document, with the fields of
`src/src/models/transaction.ts` that the embedded handlers read or write.
`userId` models the top-level `userId` document path: the schema declares no
such path and no handler ever sets one (creation stores the owner id in the
`user.id` subdocument, modelled by `userInfoId`), so it defaults to `none`.
Timestamps (`date`, `processedAt`, `lastAttemptAt`) are omitted. -/
structure Txn where
  type : String
  userId : Option String := none
  userInfoId : String := ""
  status : TxnStatus := .pending
  amount : ℚ := 0
  coinName : String := ""
  network : String := ""
  address : String := ""
  planInterest : ℚ := 0
  payoutProvider : Option String := none
  nowPaymentsId : String := ""
  nowPaymentsTxHash : String := ""
  autoProcessed : Bool := false
  payoutAttempts : Nat := 0
  payoutError : Option String := none
deriving Repr, DecidableEq, BEq

/-- Notifications sent by the deposit-decision handler (`src/src/utils/mailer.ts`
calls in `src/src/routes/deposits.ts`); the referral commission is an email, not
a transaction record. -/
inductive Notice where
  | depositStatusMail (approved : Bool)
  | referralCommissionMail (bonus : ℚ)
deriving Repr, DecidableEq

/-- State persisted by `PUT /deposits/:id`: the saved deposit record, the saved
user account, the saved referrer account (when a referral bonus was credited),
the list of transaction records the handler created (the handler creates none),
and the notification emails sent. -/
structure DepositDecision where
  deposit : Txn
  user : Account
  referrer : Option Account
  createdRecords : List Txn
  notices : List Notice
deriving Repr, DecidableEq

/-- `PUT /deposits/:id` (`src/src/routes/deposits.ts` lines 80-128). Inputs are
the loaded deposit record, the user found by the request email, the user's
referral code (if any), the referrer account a `findOne` by that code would
return, and the `amount` and `status` from the request body. The handler sets
`deposit.status = status` and saves it unconditionally — it never inspects the
current status — then on `approved` credits `user.deposit += amount` and, when
a referrer exists, `referrer.deposit += amount * 0.05`, sending a
`referralCommission` email; no `referral_bonus` transaction record is created
anywhere in the handler. -/
def updateDeposit (deposit : Txn) (user : Account) (referralCode : Option String)
    (referrer : Option Account) (amount : ℚ) (status : TxnStatus) :
    Except String DepositDecision :=
  if ¬ (status = .approved ∨ status = .rejected) then .error "Invalid status"
  else
    let deposit := { deposit with status := status }
    if status = .approved then
      let user := { user with deposit := user.deposit + amount }
      match referralCode, referrer with
      | some _, some r =>
        let bonus := amount * (5 / 100)
        .ok ⟨deposit, user, some { r with deposit := r.deposit + bonus }, [],
          [.referralCommissionMail bonus, .depositStatusMail true]⟩
      | _, _ =>
        .ok ⟨deposit, user, none, [], [.depositStatusMail true]⟩
    else
      .ok ⟨deposit, user, none, [], [.depositStatusMail false]⟩

/-- `POST /withdrawals` (withdrawals route, `src/unnamed/part_001` lines
163-229). `docs` is the transaction collection. The pending-withdrawal check is
the source's `Transaction.findOne({ userId: id, status: "pending", type:
"withdrawal" })`: it filters on a top-level `userId` document path — a path the
transaction schema does not define and that no creation ever sets (the owner id
is stored under `user.id`), so the filter is matched against the `userId` field
of the stored documents as MongoDB evaluates it. The balance check compares the
amount against `user.deposit + user.interest` only; on success a pending
withdrawal record is created and the account is not debited. -/
def createWithdrawal (docs : List Txn) (id : String) (user : Account) (amount : ℚ)
    (coinName network address : String) : Except String (List Txn × Account) :=
  if docs.any (fun t => decide (t.userId = some id ∧ t.status = .pending ∧ t.type = "withdrawal")) then
    .error "You have a pending withdrawal. Please wait for approval."
  else if amount > user.deposit + user.interest then
    .error "Insufficient balance in your account."
  else
    .ok (docs ++ [{ type := "withdrawal", userInfoId := id, status := .pending,
                    amount := amount, coinName := coinName, network := network,
                    address := address }], user)

/-- `PUT /withdrawals/:id` (withdrawals route, `src/unnamed/part_001` lines
232-309). The handler validates the requested status, refuses admin accounts,
records `previousStatus`, sets the new status, and — only when approving a
previously-pending withdrawal — re-checks `amount > deposit + interest`
(returning before any `save()` when insufficient), deducts from deposit then
interest, and adds the amount to the withdraw bucket; finally user and
withdrawal are saved. -/
def updateWithdrawal (w : Txn) (user : Account) (userIsAdmin : Bool) (status : TxnStatus) :
    Except String (Txn × Account) :=
  if ¬ (status = .approved ∨ status = .rejected ∨ status = .processing ∨ status = .pending) then
    .error "Invalid status"
  else if userIsAdmin then
    .error "Admin account balance mutation is restricted"
  else
    let amount := w.amount
    let previousStatus := w.status
    let w := { w with status := status }
    if status = .approved ∧ previousStatus = .pending then
      if amount > user.deposit + user.interest then
        .error "Insufficient user balance."
      else
        let user :=
          if user.deposit ≥ amount then { user with deposit := user.deposit - amount }
          else { user with deposit := 0, interest := user.interest - (amount - user.deposit) }
        .ok (w, { user with withdraw := user.withdraw + amount })
    else
      .ok (w, user)

/-- JavaScript `a || b` on numbers: `0` is falsy
(`interest || (amount * plan.roi) / 100` in `src/src/routes/plans.ts`). -/
def jsOrNum (x : Option ℚ) (fallback : ℚ) : ℚ :=
  match x with
  | some v => if v = 0 then fallback else v
  | none => fallback

/-- `POST /plans/contract` (`src/src/routes/plans.ts` lines 26-87): requires an
active plan, `amount ≥ plan.minAmount` and `user.deposit ≥ amount`; deducts the
stake from the deposit bucket and creates a `contract` transaction that is
auto-activated (status `active`). -/
def createContract (planIsActive : Bool) (planMinAmount planRoi : ℚ)
    (user : Account) (amount : ℚ) (interestReq : Option ℚ) :
    Except String (Txn × Account) :=
  if ¬ planIsActive then .error "Plan not found"
  else if amount < planMinAmount then .error "Minimum amount"
  else if user.deposit < amount then .error "Insufficient balance"
  else
    .ok ({ type := "contract", status := .active, amount := amount,
           planInterest := jsOrNum interestReq (amount * planRoi / 100) },
      { user with deposit := user.deposit - amount })

/-- `PUT /plans/contract/:id` (`src/src/routes/plans.ts` lines 90-158): requires
a `contract` transaction, sets the new status unconditionally, then on
`rejected` refunds the transaction amount into the user's deposit bucket and
zeroes the transaction amount; on `completed` credits deposit by the amount and
interest by the plan interest. -/
def updateContract (tx : Txn) (user : Account) (status : TxnStatus) :
    Except String (Txn × Account) :=
  if tx.type ≠ "contract" then .error "Contract not found"
  else
    let tx := { tx with status := status }
    if status = .rejected then
      .ok ({ tx with amount := 0 }, { user with deposit := user.deposit + tx.amount })
    else if status = .completed then
      .ok (tx, { user with deposit := user.deposit + tx.amount,
                           interest := user.interest + tx.planInterest })
    else
      .ok (tx, user)

/-- The pending withdrawal document created by a first successful
`POST /withdrawals` call for user `"u1"` (owner id stored under `user.id`
only; no top-level `userId` field exists). -/
def pendingWithdrawalDoc : Txn :=
  { type := "withdrawal", userInfoId := "u1", status := .pending, amount := 50,
    coinName := "BTC", network := "Bitcoin", address := "addr1234567890" }

/-- Result of `nowPayments.testConnection`
(`src/src/services/nowPaymentsService.ts`). -/
structure ConnectionResult where
  connected : Bool
  message : String
deriving Repr, DecidableEq

/-- One entry of the balance list returned by `nowPayments.getBalance`. -/
structure CurrencyBalance where
  currency : String
  available_amount : ℚ
  pending_amount : ℚ
deriving Repr, DecidableEq

/-- Result of `nowPayments.validateAddress`. -/
structure AddressValidation where
  valid : Bool
  message : String
deriving Repr, DecidableEq

/-- Result item of a NOWPayments payout call (`id`, `txid`, provider status). -/
structure PayoutResultData where
  id : String
  txid : String
  status : String
deriving Repr, DecidableEq

/-- The NOWPayments provider as seen by the orchestrator: each method either
returns a value or throws (`Except.error`). -/
structure NowPayments where
  testConnection : Except String ConnectionResult
  getBalance : String → Except String (List CurrencyBalance)
  getMinimumPayout : String → Except String ℚ
  validateAddress : String → String → Except String AddressValidation
  createPayout : String → String → ℚ → Except String PayoutResultData

/-- `PayoutOrchestrator.canProcessPayout`
(`src/src/services/payoutOrchestrator.ts` lines 46-60): requires a connected
provider and a balance entry for the currency (case-insensitive) whose
`available_amount` covers the amount; every thrown provider error is caught and
yields `false`. -/
def canProcessPayout (np : NowPayments) (currency : String) (amount : ℚ) : Bool :=
  match np.testConnection with
  | .error _ => false
  | .ok connection =>
    if ¬ connection.connected then false
    else
      match np.getBalance currency with
      | .error _ => false
      | .ok balances =>
        match balances.find? (fun b => b.currency.toLower == currency.toLower) with
        | some balance => decide (balance.available_amount ≥ amount)
        | none => false

/-- Result of `PayoutOrchestrator.validatePayout`
(`src/src/services/payoutOrchestrator.ts` lines 65-113). -/
structure PayoutValidationResult where
  valid : Bool
  errors : List String
  warnings : List String
deriving Repr, DecidableEq

/-- `PayoutOrchestrator.validatePayout`: collects errors (non-positive amount,
short address, short currency, amount below the provider minimum, provider
address-validation failure); a provider error during the minimum-amount lookup
or the address validation only adds a warning, never an error. -/
def validatePayout (np : NowPayments) (amount : ℚ) (currency walletAddress : String) :
    PayoutValidationResult :=
  let errors :=
    (if amount ≤ 0 then ["Amount must be positive"] else [])
    ++ (if walletAddress.length < 10 then ["Invalid wallet address"] else [])
    ++ (if currency.length < 2 then ["Invalid currency"] else [])
    ++ (if currency ≠ "" then
          match np.getMinimumPayout currency with
          | .ok minAmount => if amount < minAmount then ["Amount below minimum"] else []
          | .error _ => []
        else [])
    ++ (match np.validateAddress walletAddress currency with
        | .ok v => if v.valid = false then ["Invalid address"] else []
        | .error _ => [])
  let warnings :=
    (if currency ≠ "" then
       match np.getMinimumPayout currency with
       | .ok _ => []
       | .error _ => ["Could not verify minimum amount requirements"]
     else [])
    ++ (match np.validateAddress walletAddress currency with
        | .ok _ => []
        | .error _ => ["Could not validate address format"])
  ⟨errors.isEmpty, errors, warnings⟩

/-- The `{success, status, message}` value returned by the orchestrator. -/
structure CreatePayoutResponse where
  success : Bool
  status : String
  message : String
deriving Repr, DecidableEq

/-- `PayoutOrchestrator.mapNOWPaymentsStatus`
(`src/src/services/payoutOrchestrator.ts` lines 414-428). -/
def mapNOWPaymentsStatus (status : String) : TxnStatus :=
  match status.toLower with
  | "waiting" => .processing
  | "confirming" => .processing
  | "confirmed" => .completed
  | "finished" => .completed
  | "failed" => .failed
  | "refunded" => .failed
  | _ => .pending

/-- `PayoutOrchestrator.processWithdrawal`
(`src/src/services/payoutOrchestrator.ts` lines 118-246), given the loaded
transaction (`none` models a failed `findById`). Returns the orchestrator's
response and the transaction as persisted. Not a pending withdrawal → refusal
without mutation; missing wallet data or failed validation → `failed`;
`canProcessPayout` false → `requires_manual` with `success: true`; otherwise
the transaction is moved to `processing` (attempts incremented) and the
provider's payout result is mapped onto the status, a thrown provider error
leaving the transaction `failed` with `payoutError` set (the outer catch's
`findByIdAndUpdate`). -/
def processWithdrawal (np : NowPayments) (tx : Option Txn) :
    CreatePayoutResponse × Option Txn :=
  match tx with
  | none => (⟨false, "failed", "Transaction not found"⟩, none)
  | some transaction =>
    if transaction.type ≠ "withdrawal" ∨ transaction.status ≠ .pending then
      (⟨false, statusToString transaction.status, "Transaction is not a pending withdrawal"⟩,
        some transaction)
    else
      let amount := transaction.amount
      let currency := transaction.coinName
      let walletAddress := transaction.address
      if currency = "" ∨ walletAddress = "" then
        (⟨false, "failed", "Missing wallet data (currency or address)"⟩,
          some { transaction with
                  status := .failed,
                  payoutError := some "Missing wallet data (currency or address)" })
      else
        let validation := validatePayout np amount currency walletAddress
        if validation.valid = false then
          (⟨false, "failed", "Validation failed"⟩,
            some { transaction with
                    status := .failed,
                    payoutError := some "Validation failed" })
        else
          if canProcessPayout np currency amount = false then
            (⟨true, "requires_manual", "NOWPayments unavailable - marked for manual processing"⟩,
              some { transaction with
                      payoutProvider := some "manual",
                      status := .requiresManual,
                      payoutError := some "NOWPayments unavailable or insufficient balance" })
          else
            let t1 := { transaction with
                         status := .processing,
                         payoutProvider := some "nowpayments",
                         payoutAttempts := transaction.payoutAttempts + 1 }
            match np.createPayout walletAddress currency amount with
            | .ok nowResult =>
              let t2 := { t1 with
                           nowPaymentsId := nowResult.id,
                           nowPaymentsTxHash := nowResult.txid,
                           status := mapNOWPaymentsStatus nowResult.status,
                           autoProcessed := true }
              (⟨true, statusToString t2.status, "Withdrawal processed successfully via NOWPayments"⟩,
                some t2)
            | .error e =>
              (⟨false, "failed", "Processing error: " ++ e⟩,
                some { t1 with
                        status := .failed,
                        payoutError := some ("Processing error: " ++ e) })

/-- One item of a NOWPayments mass-payout request
(`address`, `currency`, `amount`). -/
structure PayoutItem where
  address : String
  currency : String
  amount : ℚ
deriving Repr, DecidableEq

/-- The mass-payout item built from a transaction for its currency group
(`src/src/services/payoutOrchestrator.ts` lines 293-301). -/
def toPayoutItem (tx : Txn) (currency : String) : PayoutItem :=
  ⟨tx.address, currency, tx.amount⟩

/-- The provider's mass-payout capability: one batched call per currency group,
which either returns a positional result list or throws. -/
structure MassProvider where
  createMassPayout : List PayoutItem → Except String (List PayoutResultData)

/-- The per-currency-group body of `PayoutOrchestrator.processMassWithdrawals`
(`src/src/services/payoutOrchestrator.ts` lines 290-341): a successful batch
call applies each positional result onto the group's transactions; a thrown
batch call marks every transaction of the group `failed` with the same
`payoutError` (the per-group `catch`); a result list of the wrong length makes
the positional access throw midway, which the same `catch` turns into the
whole group being marked `failed`. -/
def processGroup (p : MassProvider) (currency : String) (txs : List Txn) : List Txn :=
  match p.createMassPayout (txs.map (fun tx => toPayoutItem tx currency)) with
  | .ok ws =>
    if ws.length = txs.length then
      (txs.zip ws).map (fun pair =>
        let t := { pair.1 with
                    payoutProvider := some "nowpayments",
                    nowPaymentsId := pair.2.id,
                    nowPaymentsTxHash := pair.2.txid,
                    status := mapNOWPaymentsStatus pair.2.status,
                    autoProcessed := true,
                    payoutAttempts := pair.1.payoutAttempts + 1 }
        t)
    else
      txs.map (fun tx => { tx with
        status := .failed,
        payoutError := some "Mass payout failed: provider result list mismatch" })
  | .error e =>
    txs.map (fun tx => { tx with
      status := .failed,
      payoutError := some ("Mass payout failed: " ++ e) })

/-- The currencies of a transaction list in first-appearance order — the key
order of the JavaScript `reduce` grouping object
(`src/src/services/payoutOrchestrator.ts` lines 277-284). -/
def currencyList (txs : List Txn) : List String :=
  txs.foldl (fun acc tx => if tx.coinName ∈ acc then acc else acc ++ [tx.coinName]) []

/-- The per-currency grouping of `processMassWithdrawals`: each currency with
its transactions in order. -/
def groupByCurrency (txs : List Txn) : List (String × List Txn) :=
  (currencyList txs).map (fun c => (c, txs.filter (fun tx => tx.coinName == c)))

/-- `PayoutOrchestrator.processMassWithdrawals`, restricted to its per-group
processing loop: every currency group is processed by its own provider call,
independently of the other groups. -/
def processMassWithdrawals (p : MassProvider) (txs : List Txn) :
    List (String × List Txn) :=
  (groupByCurrency txs).map (fun g => (g.1, processGroup p g.1 g.2))

/-- The provider used in the C8 witness: connected, holding 50 BTC available,
with a 10-unit minimum and a valid address check; `createPayout` is never
reached. -/
def npLowBalance : NowPayments where
  testConnection := .ok ⟨true, "connected"⟩
  getBalance := fun _ => .ok [⟨"btc", 50, 0⟩]
  getMinimumPayout := fun _ => .ok 10
  validateAddress := fun _ _ => .ok ⟨true, "valid"⟩
  createPayout := fun _ _ _ => .error "not reached"

/-- The pending $100 BTC withdrawal of spec Scenario 4. -/
def scenario4Tx : Txn :=
  { type := "withdrawal", status := .pending, amount := 100,
    coinName := "BTC", address := "addr1234567890" }

/-- The three USDT withdrawals of spec Scenario 5. -/
def usdtGroup : List Txn :=
  [{ type := "withdrawal", userInfoId := "a", status := .pending, amount := 10,
     coinName := "USDT", address := "Taddr000000000001" },
   { type := "withdrawal", userInfoId := "b", status := .pending, amount := 20,
     coinName := "USDT", address := "Taddr000000000002" },
   { type := "withdrawal", userInfoId := "c", status := .pending, amount := 30,
     coinName := "USDT", address := "Taddr000000000003" }]

/-- The two ETH withdrawals processed in the same batch as the USDT group. -/
def ethGroup : List Txn :=
  [{ type := "withdrawal", userInfoId := "d", status := .pending, amount := 5,
     coinName := "ETH", address := "0xaddr0000000001" },
   { type := "withdrawal", userInfoId := "e", status := .pending, amount := 7,
     coinName := "ETH", address := "0xaddr0000000002" }]

/-- The five withdrawals of the Scenario 5 batch. -/
def scenario5Txs : List Txn := usdtGroup ++ ethGroup

/-- A provider whose USDT batch call throws and whose ETH batch call succeeds. -/
def pUsdtThrows : MassProvider where
  createMassPayout := fun items =>
    if items.any (fun it => it.currency == "USDT") then .error "NOWPayments API error"
    else .ok [⟨"id1", "h1", "finished"⟩, ⟨"id2", "h2", "waiting"⟩]

/-- A provider that agrees with `pUsdtThrows` on every non-USDT batch but
succeeds on USDT. -/
def pUsdtSucceeds : MassProvider where
  createMassPayout := fun items =>
    if items.any (fun it => it.currency == "USDT") then
      .ok [⟨"u1", "t1", "finished"⟩, ⟨"u2", "t2", "finished"⟩, ⟨"u3", "t3", "finished"⟩]
    else .ok [⟨"id1", "h1", "finished"⟩, ⟨"id2", "h2", "waiting"⟩]

/-- Shared characterization of `validateAndDeductBalance`: when availableBalance
covers the amount (and interest, bonus, withdraw are non-negative) the call
succeeds and the persisted account is exactly the spec-worded spill
`specDeduct`. -/
theorem validateAndDeduct_eq_specDeduct (u : Account) (amount : ℚ)
    (hi : 0 ≤ u.interest) (hb : 0 ≤ u.bonus) (hw : 0 ≤ u.withdraw)
    (hcov : amount ≤ getAvailableBalance u) :
    validateAndDeductBalance u amount = .ok (specDeduct u amount) := by
  have havail : ¬ getAvailableBalance u < amount := not_lt.mpr hcov
  have hcov' : amount ≤ u.deposit + u.interest + u.bonus - u.withdraw := hcov
  unfold validateAndDeductBalance specDeduct
  dsimp only
  rw [if_neg havail]
  rcases le_or_lt amount u.deposit with hda | hda
  · -- amount fully covered by deposit
    have hda2 : u.deposit ≥ amount := hda
    simp only [if_pos hda2]
    have h1 : ¬ ((0:ℚ) > 0 ∧ u.interest ≥ 0) := by simp
    have h2 : ¬ ((0:ℚ) > 0) := by simp
    simp only [if_neg h1, if_neg h2]
    have hmind : min u.deposit amount = amount := min_eq_right hda
    have hmini : min u.interest (amount - min u.deposit amount) = 0 := by
      rw [hmind, sub_self]; exact min_eq_right hi
    have hminb : min u.bonus (amount - min u.deposit amount -
        min u.interest (amount - min u.deposit amount)) = 0 := by
      rw [hmind, sub_self, min_eq_right hi, sub_self]; exact min_eq_right hb
    rw [hminb, hmini, hmind]
    norm_num
  · -- spill past deposit
    have hda' : ¬ u.deposit ≥ amount := not_le.mpr hda
    simp only [if_neg hda']
    have hr1 : (0:ℚ) < amount - u.deposit := by linarith
    have hmind : min u.deposit amount = u.deposit := min_eq_left (le_of_lt hda)
    rcases le_or_lt (amount - u.deposit) u.interest with hia | hia
    · -- interest covers the remainder
      have hc : (amount - u.deposit > 0 ∧ u.interest ≥ amount - u.deposit) := ⟨hr1, hia⟩
      simp only [if_pos hc]
      have h2 : ¬ ((0:ℚ) > 0 ∧ u.bonus ≥ 0) := by simp
      have h3 : ¬ ((0:ℚ) > 0) := by simp
      simp only [if_neg h2, if_neg h3]
      have hmini : min u.interest (amount - min u.deposit amount) = amount - u.deposit := by
        rw [hmind]; exact min_eq_right hia
      have hminb : min u.bonus (amount - min u.deposit amount -
          min u.interest (amount - min u.deposit amount)) = 0 := by
        rw [hmind, min_eq_right hia, sub_self]; exact min_eq_right hb
      rw [hminb, hmini, hmind]
      norm_num
    · -- spill past interest into bonus
      have hc : ¬ (amount - u.deposit > 0 ∧ u.interest ≥ amount - u.deposit) := by
        simp only [not_and]
        intro _
        exact not_le.mpr hia
      simp only [if_neg hc, if_pos hr1]
      have hr2 : (0:ℚ) < amount - u.deposit - u.interest := by linarith
      have hbcov : u.bonus ≥ amount - u.deposit - u.interest := by linarith
      have hc2 : (amount - u.deposit - u.interest > 0 ∧
          u.bonus ≥ amount - u.deposit - u.interest) := ⟨hr2, hbcov⟩
      simp only [if_pos hc2]
      have hmini : min u.interest (amount - min u.deposit amount) = u.interest := by
        rw [hmind]; exact min_eq_left (le_of_lt hia)
      have hminb : min u.bonus (amount - min u.deposit amount -
          min u.interest (amount - min u.deposit amount)) =
          amount - u.deposit - u.interest := by
        rw [hmind, min_eq_left (le_of_lt hia)]; exact min_eq_right hbcov
      rw [hminb, hmini, hmind]
      norm_num

/-- C2: for every account whose availableBalance covers the requested (positive)
debit, `validateAndDeductBalance` succeeds and deducts in the fixed precedence
deposit → interest → bonus, each bucket reduced to zero before spilling to the
next (the result equals the spec-worded `specDeduct`). -/
theorem c2_deduct_precedence (u : Account) (amount : ℚ)
    (hd : 0 ≤ u.deposit) (hi : 0 ≤ u.interest) (hb : 0 ≤ u.bonus) (hw : 0 ≤ u.withdraw)
    (hpos : 0 < amount) (hcov : amount ≤ getAvailableBalance u) :
    validateAndDeductBalance u amount = .ok (specDeduct u amount) :=
  validateAndDeduct_eq_specDeduct u amount hi hb hw hcov

/-- C2 witness: Scenario 1 of the spec. Account with deposit=40, interest=20,
bonus=0 debited by 50 succeeds and leaves deposit=0, interest=10, bonus=0. -/
theorem c2_deduct_precedence_witness :
    (0:ℚ) < 50 ∧ (50:ℚ) ≤ getAvailableBalance ⟨40, 20, 0, 0⟩ ∧
    validateAndDeductBalance ⟨40, 20, 0, 0⟩ 50 = .ok ⟨0, 10, 0, 0⟩ :=
  ⟨by norm_num, by norm_num [getAvailableBalance],
    (c2_deduct_precedence ⟨40, 20, 0, 0⟩ 50 (by norm_num) (by norm_num) (by norm_num)
      (by norm_num) (by norm_num) (by norm_num [getAvailableBalance])).trans
      (by norm_num [specDeduct, min_def])⟩

/-- C3: when the requested amount exceeds the available balance,
`validateAndDeductBalance` fails with the insufficient-funds result carrying
the available and the required amount, and the persisted account is unchanged. -/
theorem c3_insufficient_funds_unchanged (u : Account) (amount : ℚ)
    (h : getAvailableBalance u < amount) :
    validateAndDeductBalance u amount = .insufficient (getAvailableBalance u) amount ∧
    persistedAfterDeduct u (validateAndDeductBalance u amount) = u := by
  have heq : validateAndDeductBalance u amount = .insufficient (getAvailableBalance u) amount := by
    unfold validateAndDeductBalance
    rw [if_pos h]
  exact ⟨heq, by rw [heq]; rfl⟩

/-- C3 witness: Scenario 2 of the spec. Account with deposit=40, interest=20,
bonus=0 debited by 65 fails reporting available 60 and required 65, with all
buckets unchanged. -/
theorem c3_insufficient_funds_unchanged_witness :
    getAvailableBalance ⟨40, 20, 0, 0⟩ < 65 ∧
    validateAndDeductBalance ⟨40, 20, 0, 0⟩ 65 = .insufficient 60 65 ∧
    persistedAfterDeduct ⟨40, 20, 0, 0⟩ (validateAndDeductBalance ⟨40, 20, 0, 0⟩ 65) =
      ⟨40, 20, 0, 0⟩ :=
  ⟨by norm_num [getAvailableBalance],
    ((c3_insufficient_funds_unchanged ⟨40, 20, 0, 0⟩ 65
      (by norm_num [getAvailableBalance])).1).trans (by norm_num [getAvailableBalance]),
    (c3_insufficient_funds_unchanged ⟨40, 20, 0, 0⟩ 65
      (by norm_num [getAvailableBalance])).2⟩

/-- C4 (code bug): `PUT /deposits/:id` performs no terminal-status guard. A
deposit record already in the terminal status `rejected` is re-transitioned to
`approved` by a further admin call, and the user is credited the full amount —
no Conflict error is raised and the record and balances do not stay unchanged. -/
theorem c4_terminal_deposit_retransitioned :
    (Txn.status { type := "deposit", status := .rejected, amount := 100 } = .rejected) ∧
    updateDeposit { type := "deposit", status := .rejected, amount := 100 }
      ⟨0, 0, 0, 0⟩ none none 100 .approved =
      .ok ⟨{ type := "deposit", status := .approved, amount := 100 },
        ⟨100, 0, 0, 0⟩, none, [], [.depositStatusMail true]⟩ := by
  constructor
  · rfl
  · norm_num [updateDeposit]

/-- C7 counterexample: approving a pending $100 deposit for a user with a
referral code and an existing referrer credits the referrer's deposit bucket
with 5 (= 100 * 0.05) but creates no transaction record at all — in particular
no record of type `referral_bonus` — contradicting the claim that a separate
`referral_bonus` TransactionRecord is created; only a referral-commission email
is sent. -/
theorem c7_no_referral_bonus_record :
    updateDeposit { type := "deposit", status := .pending, amount := 100 }
      ⟨0, 0, 0, 0⟩ (some "refcode") (some ⟨0, 0, 0, 0⟩) 100 .approved =
      .ok ⟨{ type := "deposit", status := .approved, amount := 100 },
        ⟨100, 0, 0, 0⟩, some ⟨5, 0, 0, 0⟩, [],
        [.referralCommissionMail 5, .depositStatusMail true]⟩ := by
  norm_num [updateDeposit]

/-- C7 amended: approving a deposit of amount A credits the user's deposit
bucket by exactly A; when the user carries a referral code identifying an
existing referrer, the referrer's deposit bucket is additionally credited by
exactly A * 0.05 and a referral-commission email is sent — but no
`referral_bonus` TransactionRecord (indeed no record at all) is created by the
handler. -/
theorem c7_referral_commission_credited_no_record
    (dep : Txn) (u r : Account) (code : String) (amount : ℚ) :
    updateDeposit dep u (some code) (some r) amount .approved =
      .ok ⟨{ dep with status := .approved }, { u with deposit := u.deposit + amount },
        some { r with deposit := r.deposit + amount * (5 / 100) }, [],
        [.referralCommissionMail (amount * (5 / 100)), .depositStatusMail true]⟩ ∧
    updateDeposit dep u none none amount .approved =
      .ok ⟨{ dep with status := .approved }, { u with deposit := u.deposit + amount },
        none, [], [.depositStatusMail true]⟩ := by
  constructor <;> norm_num [updateDeposit]

/-- C5: withdrawals debit at approval, not at creation. (a) a successful
`POST /withdrawals` leaves the account unchanged; (b) approving a pending
withdrawal with sufficient funds at approval time debits deposit-then-interest
and increases the withdraw bucket by exactly the amount, with the status
advancing to approved; (c) when funds are insufficient at approval time the
handler errors before saving, so neither the status nor any bucket is
persisted. -/
theorem c5_withdrawal_debit_at_approval :
    (∀ (docs : List Txn) (id : String) (u : Account) (amount : ℚ) (cn nw ad : String)
      (res : List Txn × Account),
      createWithdrawal docs id u amount cn nw ad = .ok res → res.2 = u)
    ∧ (∀ (w : Txn) (u : Account), w.status = .pending →
        w.amount ≤ u.deposit + u.interest →
        updateWithdrawal w u false .approved =
          .ok ({ w with status := .approved },
            if u.deposit ≥ w.amount then
              { u with deposit := u.deposit - w.amount, withdraw := u.withdraw + w.amount }
            else
              { u with deposit := 0, interest := u.interest - (w.amount - u.deposit),
                       withdraw := u.withdraw + w.amount }))
    ∧ (∀ (w : Txn) (u : Account), w.status = .pending →
        w.amount > u.deposit + u.interest →
        updateWithdrawal w u false .approved = .error "Insufficient user balance.") := by
  refine ⟨?_, ?_, ?_⟩
  · intro docs id u amount cn nw ad res h
    unfold createWithdrawal at h
    split at h
    · exact absurd h (by simp)
    · split at h
      · exact absurd h (by simp)
      · rw [Except.ok.injEq] at h
        rw [← h]
  · intro w u hst hcov
    have hnotgt : ¬ w.amount > u.deposit + u.interest := not_lt.mpr hcov
    unfold updateWithdrawal
    rw [if_neg (by simp), if_neg (by simp)]
    dsimp only
    rw [if_pos ⟨rfl, hst⟩, if_neg hnotgt]
    split
    · rfl
    · rfl
  · intro w u hst hgt
    unfold updateWithdrawal
    rw [if_neg (by simp), if_neg (by simp)]
    dsimp only
    rw [if_pos ⟨rfl, hst⟩, if_pos hgt]

/-- C5 witness: creating a withdrawal of 50 for an account with deposit=30,
interest=40 leaves the account unchanged; approving the resulting pending
withdrawal deducts 30 from deposit and 20 from interest and sets withdraw=50;
approving a pending withdrawal of 200 against the same account fails with the
insufficient-balance error. -/
theorem c5_withdrawal_debit_at_approval_witness :
    (createWithdrawal [] "u1" ⟨30, 40, 0, 0⟩ 50 "BTC" "Bitcoin" "addr1234567890" =
      .ok ([{ type := "withdrawal", userInfoId := "u1", status := .pending, amount := 50,
              coinName := "BTC", network := "Bitcoin", address := "addr1234567890" }],
        ⟨30, 40, 0, 0⟩)) ∧
    (({ type := "withdrawal", userInfoId := "u1", status := .pending, amount := 50,
        coinName := "BTC", network := "Bitcoin", address := "addr1234567890" : Txn},
        (⟨30, 40, 0, 0⟩ : Account)).2 = ⟨30, 40, 0, 0⟩) ∧
    (updateWithdrawal { type := "withdrawal", userInfoId := "u1", status := .pending, amount := 50 }
        ⟨30, 40, 0, 0⟩ false .approved =
      .ok ({ type := "withdrawal", userInfoId := "u1", status := .approved, amount := 50 },
        ⟨0, 20, 0, 50⟩)) ∧
    (updateWithdrawal { type := "withdrawal", status := .pending, amount := 200 }
      ⟨30, 40, 0, 0⟩ false .approved = .error "Insufficient user balance.") := by
  refine ⟨?_, ?_, ?_, ?_⟩
  · norm_num [createWithdrawal]
  · exact c5_withdrawal_debit_at_approval.1 []
      "u1" ⟨30, 40, 0, 0⟩ 50 "BTC" "Bitcoin" "addr1234567890"
      ([{ type := "withdrawal", userInfoId := "u1", status := .pending, amount := 50,
          coinName := "BTC", network := "Bitcoin", address := "addr1234567890" }],
        ⟨30, 40, 0, 0⟩)
      (by norm_num [createWithdrawal])
  · exact (c5_withdrawal_debit_at_approval.2.1
      { type := "withdrawal", userInfoId := "u1", status := .pending, amount := 50 }
      ⟨30, 40, 0, 0⟩ rfl (by norm_num)).trans (by norm_num)
  · exact c5_withdrawal_debit_at_approval.2.2
      { type := "withdrawal", status := .pending, amount := 200 }
      ⟨30, 40, 0, 0⟩ rfl (by norm_num)

/-- C6: rejecting a pending contract transaction of stake S — whose stake was
deducted from the deposit bucket at creation, as the creation conjunct shows —
credits exactly S back to the user's deposit bucket and zeroes the transaction
amount. -/
theorem c6_contract_rejection_refund (tx : Txn) (u : Account) (S : ℚ)
    (htype : tx.type = "contract") (hstat : tx.status = .pending) (hamt : tx.amount = S) :
    updateContract tx u .rejected =
      .ok ({ tx with status := .rejected, amount := 0 },
        { u with deposit := u.deposit + S }) ∧
    (∀ (mn roi : ℚ) (u2 : Account) (amt : ℚ) (iReq : Option ℚ) (res : Txn × Account),
      createContract true mn roi u2 amt iReq = .ok res →
      res.2.deposit = u2.deposit - amt ∧ res.1.amount = amt ∧ res.1.type = "contract") := by
  constructor
  · unfold updateContract
    rw [if_neg (by simp [htype])]
    dsimp only
    rw [if_pos rfl, hamt]
  · intro mn roi u2 amt iReq res h
    unfold createContract at h
    split at h
    · exact absurd h (by simp)
    · split at h
      · exact absurd h (by simp)
      · split at h
        · exact absurd h (by simp)
        · rw [Except.ok.injEq] at h
          rw [← h]
          exact ⟨rfl, rfl, rfl⟩

/-- C6 witness: rejecting a pending contract of stake 100 restores exactly 100
to a zero account's deposit bucket and zeroes the transaction amount; and a
contract creation of stake 100 against deposit=250 deducts exactly the stake. -/
theorem c6_contract_rejection_refund_witness :
    (updateContract { type := "contract", status := .pending, amount := 100 }
      ⟨0, 0, 0, 0⟩ .rejected =
      .ok ({ type := "contract", status := .rejected, amount := 0 }, ⟨100, 0, 0, 0⟩)) ∧
    ((createContract true 10 5 ⟨250, 0, 0, 0⟩ 100 none).map
      (fun res => (res.2.deposit, res.1.amount, res.1.type)) =
      .ok (150, 100, "contract")) := by
  constructor
  · exact ((c6_contract_rejection_refund
      { type := "contract", status := .pending, amount := 100 }
      ⟨0, 0, 0, 0⟩ 100 rfl rfl rfl).1).trans (by norm_num)
  · have h := (c6_contract_rejection_refund
      { type := "contract", status := .pending, amount := 100 }
      ⟨0, 0, 0, 0⟩ 100 rfl rfl rfl).2 10 5 ⟨250, 0, 0, 0⟩ 100 none
      ({ type := "contract", status := .active, amount := 100, planInterest := 5 },
        ⟨150, 0, 0, 0⟩) (by norm_num [createContract, jsOrNum])
    rw [show createContract true 10 5 ⟨250, 0, 0, 0⟩ 100 none =
      .ok ({ type := "contract", status := .active, amount := 100, planInterest := 5 },
        ⟨150, 0, 0, 0⟩) from by norm_num [createContract, jsOrNum]]
    rw [Except.map, h.1]
    norm_num

/-- C9 (code bug): the pending-withdrawal uniqueness check never fires. The
creation filter queries the top-level `userId` path, but withdrawal documents
store the owner id only under `user.id` (the schema defines no `userId` path),
so the filter matches no document: a user with an existing pending withdrawal
can create a second one, leaving two pending withdrawals for the same account. -/
theorem c9_duplicate_pending_withdrawals :
    (createWithdrawal [] "u1" ⟨100, 0, 0, 0⟩ 50 "BTC" "Bitcoin" "addr1234567890" =
      .ok ([pendingWithdrawalDoc], ⟨100, 0, 0, 0⟩)) ∧
    (createWithdrawal [pendingWithdrawalDoc]
      "u1" ⟨100, 0, 0, 0⟩ 50 "BTC" "Bitcoin" "addr1234567890" =
      .ok ([pendingWithdrawalDoc, pendingWithdrawalDoc], ⟨100, 0, 0, 0⟩)) ∧
    (List.length (List.filter
      (fun t => decide (t.userInfoId = "u1" ∧ t.status = .pending ∧ t.type = "withdrawal"))
      [pendingWithdrawalDoc, pendingWithdrawalDoc]) = 2) := by
  refine ⟨?_, ?_, ?_⟩
  · norm_num [createWithdrawal, pendingWithdrawalDoc]
  · norm_num [createWithdrawal, pendingWithdrawalDoc]
    intro h
    exact Option.noConfusion h
  · rfl

/-- C8: `canProcessPayout` is true exactly when the provider reports itself
connected and its balance entry for the currency covers the amount — so any
provider error yields false (fail closed) — and whenever a pending withdrawal
passes validation but `canProcessPayout` is false, `processWithdrawal` marks
the transaction `requires_manual` and reports `success: true`. -/
theorem c8_fail_closed_requires_manual :
    (∀ (np : NowPayments) (currency : String) (amount : ℚ),
      canProcessPayout np currency amount = true ↔
        ∃ connection balances balance,
          np.testConnection = .ok connection ∧ connection.connected = true ∧
          np.getBalance currency = .ok balances ∧
          balances.find? (fun b => b.currency.toLower == currency.toLower) = some balance ∧
          amount ≤ balance.available_amount)
    ∧ (∀ (np : NowPayments) (tx : Txn),
        tx.type = "withdrawal" → tx.status = .pending →
        tx.coinName ≠ "" → tx.address ≠ "" →
        (validatePayout np tx.amount tx.coinName tx.address).valid = true →
        canProcessPayout np tx.coinName tx.amount = false →
        processWithdrawal np (some tx) =
          (⟨true, "requires_manual", "NOWPayments unavailable - marked for manual processing"⟩,
            some { tx with
                   payoutProvider := some "manual",
                   status := .requiresManual,
                   payoutError := some "NOWPayments unavailable or insufficient balance" })) := by
  constructor
  · intro np currency amount
    constructor
    · intro h
      unfold canProcessPayout at h
      cases hc : np.testConnection with
      | error e => rw [hc] at h; exact absurd h (by simp)
      | ok connection =>
        rw [hc] at h
        dsimp only at h
        by_cases hcb : connection.connected = true
        · rw [if_neg (by simp [hcb])] at h
          cases hb : np.getBalance currency with
          | error e => rw [hb] at h; exact absurd h (by simp)
          | ok balances =>
            rw [hb] at h
            dsimp only at h
            cases hf : balances.find? (fun b => b.currency.toLower == currency.toLower) with
            | none => rw [hf] at h; exact absurd h (by simp)
            | some balance =>
              rw [hf] at h
              exact ⟨connection, balances, balance, rfl, hcb, rfl, hf, of_decide_eq_true h⟩
        · rw [if_pos (by simpa using hcb)] at h
          exact absurd h (by simp)
    · rintro ⟨connection, balances, balance, h1, h2, h3, h4, h5⟩
      unfold canProcessPayout
      rw [h1]
      dsimp only
      rw [if_neg (by simp [h2]), h3]
      dsimp only
      rw [h4]
      exact decide_eq_true h5
  · intro np tx htype hstatus hcn had hval hcan
    unfold processWithdrawal
    dsimp only
    rw [if_neg (by simp [htype, hstatus])]
    rw [if_neg (by simp [hcn, had]), if_neg (by simp [hval]), if_pos hcan]

/-- C8 witness: Scenario 4 of the spec. A pending $100 BTC withdrawal against a
provider whose available BTC balance is 50: `canProcessPayout` is false, and
`processWithdrawal` returns `success: true` with the transaction persisted as
`requires_manual`. -/
theorem c8_fail_closed_requires_manual_witness :
    canProcessPayout npLowBalance "BTC" 100 = false ∧
    processWithdrawal npLowBalance (some scenario4Tx) =
      (⟨true, "requires_manual", "NOWPayments unavailable - marked for manual processing"⟩,
        some { scenario4Tx with
               payoutProvider := some "manual",
               status := .requiresManual,
               payoutError := some "NOWPayments unavailable or insufficient balance" }) := by
  have hcan : canProcessPayout npLowBalance "BTC" 100 = false := by
    cases hcp : canProcessPayout npLowBalance "BTC" 100 with
    | false => rfl
    | true =>
      obtain ⟨connection, balances, balance, h1, h2, h3, h4, h5⟩ :=
        (c8_fail_closed_requires_manual.1 npLowBalance "BTC" 100).mp hcp
      have hbs : balances = [⟨"btc", 50, 0⟩] := by
        have h3' : Except.ok (ε := String) [CurrencyBalance.mk "btc" 50 0] = .ok balances := by
          rw [← h3]
          rfl
        rw [Except.ok.injEq] at h3'
        exact h3'.symm
      subst hbs
      have hmem : balance ∈ [CurrencyBalance.mk "btc" 50 0] := List.mem_of_find?_eq_some h4
      rw [List.mem_singleton] at hmem
      subst hmem
      exact absurd h5 (by norm_num)
  refine ⟨hcan, ?_⟩
  exact c8_fail_closed_requires_manual.2 npLowBalance scenario4Tx rfl rfl
    (by decide) (by decide) (by decide) hcan

/-- C10: if the provider's batch call for one currency group throws, every
transaction of that group is marked `failed` with the same `payoutError`, the
group's processed form still appears in the mass-withdrawal output, and every
other currency group is processed independently: it also appears in the
output, and its result is unchanged under any provider that agrees with the
original on that group's payout items. -/
theorem c10_mass_payout_group_isolation (p q : MassProvider) (txs : List Txn)
    (c : String) (g : List Txn) (e : String)
    (hg : (c, g) ∈ groupByCurrency txs)
    (he : p.createMassPayout (g.map (fun tx => toPayoutItem tx c)) = .error e) :
    processGroup p c g = g.map (fun tx => { tx with
      status := .failed, payoutError := some ("Mass payout failed: " ++ e) })
    ∧ (c, processGroup p c g) ∈ processMassWithdrawals p txs
    ∧ (∀ (c2 : String) (g2 : List Txn), (c2, g2) ∈ groupByCurrency txs →
        (c2, processGroup p c2 g2) ∈ processMassWithdrawals p txs
        ∧ (q.createMassPayout (g2.map (fun tx => toPayoutItem tx c2)) =
             p.createMassPayout (g2.map (fun tx => toPayoutItem tx c2)) →
           processGroup q c2 g2 = processGroup p c2 g2)) := by
  refine ⟨?_, ?_, ?_⟩
  · unfold processGroup
    rw [he]
  · exact List.mem_map_of_mem _ hg
  · intro c2 g2 hg2
    refine ⟨List.mem_map_of_mem _ hg2, ?_⟩
    intro hagree
    unfold processGroup
    rw [hagree]

/-- C10 witness: Scenario 5 of the spec. In a batch holding 3 USDT and 2 ETH
withdrawals whose USDT provider call throws, all 3 USDT transactions become
`failed` with the same `payoutError`, while the ETH group is still processed
and its result is identical to what a provider that succeeds on USDT
produces. -/
theorem c10_mass_payout_group_isolation_witness :
    (("USDT", usdtGroup) ∈ groupByCurrency scenario5Txs) ∧
    processGroup pUsdtThrows "USDT" usdtGroup = usdtGroup.map (fun tx => { tx with
      status := .failed, payoutError := some "Mass payout failed: NOWPayments API error" })
    ∧ ("ETH", processGroup pUsdtThrows "ETH" ethGroup) ∈
        processMassWithdrawals pUsdtThrows scenario5Txs
    ∧ processGroup pUsdtSucceeds "ETH" ethGroup = processGroup pUsdtThrows "ETH" ethGroup := by
  have hgroups : groupByCurrency scenario5Txs = [("USDT", usdtGroup), ("ETH", ethGroup)] := rfl
  have hg : ("USDT", usdtGroup) ∈ groupByCurrency scenario5Txs := by
    rw [hgroups]; exact List.mem_cons_self _ _
  have he : pUsdtThrows.createMassPayout
      (usdtGroup.map (fun tx => toPayoutItem tx "USDT")) = .error "NOWPayments API error" := by
    rfl
  have hg2 : ("ETH", ethGroup) ∈ groupByCurrency scenario5Txs := by
    rw [hgroups]; exact List.mem_cons_of_mem _ (List.mem_cons_self _ _)
  have h := c10_mass_payout_group_isolation pUsdtThrows pUsdtSucceeds scenario5Txs
    "USDT" usdtGroup "NOWPayments API error" hg he
  refine ⟨hg, h.1, (h.2.2 "ETH" ethGroup hg2).1, (h.2.2 "ETH" ethGroup hg2).2 ?_⟩
  rfl
